import Mathlib

/-!
Verification of the operation-translation layer of a proxy SFTP storage
backend (`pysftpserver/proxystorage.py`): flag-to-mode translation, error
normalization, stat fallback, setstat category application, directory
listing, write/read/symlink forwarding.  Python exceptions are modelled as
an explicit `Except` error channel; the remote session client and file
handles (external collaborators) are modelled as records of functions.
-/

/-- A Python exception as seen by this layer: either a member of the
IOError family, tagged with whether it is also an OSError instance and
carrying `errno` and `strerror`, or some unrelated exception. -/
inductive PyExc where
  | ioError (isOSError : Bool) (errno : Int) (strerror : String)
  | other (desc : String)
deriving DecidableEq

/-- True when the exception belongs to the unified OS-error family the
hosting engine pattern-matches against. -/
def isOSErrorFamily : PyExc → Bool
  | .ioError isOS _ _ => isOS
  | .other _ => false

/-- Embedding of `exception_wrapper`: run the method; an IOError that is
not an OSError instance is re-raised as `OSError(e.errno, e.strerror)`;
an IOError that already is an OSError is re-raised unchanged; anything
else propagates untouched. -/
def exception_wrapper {α : Type} (res : Except PyExc α) : Except PyExc α :=
  match res with
  | .error (.ioError isOS errno msg) =>
      if isOS then .error (.ioError isOS errno msg)
      else .error (.ioError true errno msg)
  | r => r

/-- os.O_WRONLY on the target platform. -/
def O_WRONLY : Nat := 1
/-- os.O_RDWR on the target platform. -/
def O_RDWR : Nat := 2
/-- os.O_CREAT on the target platform. -/
def O_CREAT : Nat := 64
/-- os.O_EXCL on the target platform. -/
def O_EXCL : Nat := 128
/-- os.O_TRUNC on the target platform. -/
def O_TRUNC : Nat := 512
/-- os.O_APPEND on the target platform. -/
def O_APPEND : Nat := 1024

/-- Embedding of `SFTPServerProxyStorage.flags_to_mode`: the if/elif
cascade translating os open flags (a bit set) and a mode (ignored) into a
Paramiko mode token, with an `x` suffix when both O_CREAT and O_EXCL are
set. -/
def flags_to_mode (flags : Nat) (mode : Nat) : String :=
  let paramiko_mode : String :=
    if (flags &&& O_WRONLY != 0) ||
        ((flags &&& O_WRONLY != 0) && (flags &&& O_TRUNC != 0)) then "w"
    else if (flags &&& O_RDWR != 0) && (flags &&& O_APPEND != 0) then "a+"
    else if (flags &&& O_RDWR != 0) && (flags &&& O_CREAT != 0) then "w+"
    else if (flags &&& O_APPEND != 0) then "a"
    else if (flags &&& O_RDWR != 0) && (flags &&& O_TRUNC != 0) then "w+"
    else if (flags &&& O_RDWR != 0) then "r+"
    else if (flags &&& O_CREAT != 0) then "w"
    else "r"
  if (flags &&& O_CREAT != 0) && (flags &&& O_EXCL != 0) then
    paramiko_mode ++ "x"
  else paramiko_mode

/-- One rule of the spec's ordered decision table: a condition on the flag
set and the mode token it yields. -/
structure FlagRule where
  cond : Nat → Bool
  token : String

/-- First-matching-rule evaluation of an ordered decision table, with the
spec's default token for the none-of-the-above case. -/
def firstMatch (flags : Nat) : List FlagRule → String
  | [] => "r"
  | r :: rs => if r.cond flags then r.token else firstMatch flags rs

/-- The spec's fixed ordered decision table: write-only (alone or with
truncate) yields w; read-write+append yields a+; read-write+create yields
w+; append yields a; read-write+truncate yields w+; read-write yields r+;
create yields w; otherwise r. -/
def specFlagTable : List FlagRule :=
  [ ⟨fun f => (f &&& O_WRONLY != 0) ||
        ((f &&& O_WRONLY != 0) && (f &&& O_TRUNC != 0)), "w"⟩,
    ⟨fun f => (f &&& O_RDWR != 0) && (f &&& O_APPEND != 0), "a+"⟩,
    ⟨fun f => (f &&& O_RDWR != 0) && (f &&& O_CREAT != 0), "w+"⟩,
    ⟨fun f => (f &&& O_APPEND != 0), "a"⟩,
    ⟨fun f => (f &&& O_RDWR != 0) && (f &&& O_TRUNC != 0), "w+"⟩,
    ⟨fun f => (f &&& O_RDWR != 0), "r+"⟩,
    ⟨fun f => (f &&& O_CREAT != 0), "w"⟩ ]

/-- The mode token prescribed by the spec: first matching rule of the
table wins, and when both the create and exclusive bits are set the
character x is appended to whatever base token was chosen. -/
def specFlagMode (flags : Nat) : String :=
  let base := firstMatch flags specFlagTable
  if (flags &&& O_CREAT != 0) && (flags &&& O_EXCL != 0) then base ++ "x"
  else base

/-- Claim C1: for every flag set, `flags_to_mode` returns exactly the
token given by the spec's fixed ordered decision table, first matching
rule winning, with x appended when both create and exclusive bits are
set. -/
theorem flags_to_mode_matches_spec_table (flags mode : Nat) :
    flags_to_mode flags mode = specFlagMode flags := by
  rfl

/-- Claim C7: the mode argument of `flags_to_mode` has no influence on
its result. -/
theorem flags_to_mode_ignores_mode (flags m1 m2 : Nat) :
    flags_to_mode flags m1 = flags_to_mode flags m2 := by
  rfl

/-- A remote stat structure as returned by the session client. -/
structure StatRes where
  st_size : Int
  st_uid : Int
  st_gid : Int
  st_mode : Nat
  st_atime : Int
  st_mtime : Int
deriving DecidableEq

/-- The remote session client (Paramiko SFTPClient), modelled as a record
of the operations this layer forwards to; each may fail with a Python
exception. -/
structure RemoteClient where
  stat : String → Except PyExc StatRes
  lstat : String → Except PyExc StatRes
  listdir : String → Except PyExc (List String)
  remove : String → Except PyExc Unit
  symlink : String → String → Except PyExc Unit
  truncate : String → Int → Except PyExc Unit
  chown : String → Int → Int → Except PyExc Unit
  chmod : String → Int → Except PyExc Unit
  utime : String → Int → Int → Except PyExc Unit

/-- An open remote file handle, modelled as the record of its methods. -/
structure FileHandle where
  seek : Int → Except PyExc Unit
  write : List Nat → Except PyExc Unit
  read : Nat → Except PyExc (List Nat)
  close : Except PyExc Unit
  truncate : Int → Except PyExc Unit
  chown : Int → Int → Except PyExc Unit
  chmod : Int → Except PyExc Unit
  utime : Int → Int → Except PyExc Unit

/-- The attribute dictionary a stat request returns. -/
structure Attrs where
  size : Int
  uid : Int
  gid : Int
  perm : Nat
  atime : Int
  mtime : Int
  longname : Option String
deriving DecidableEq

/-- Embedding of `os.path.join` on two POSIX path components. -/
def os_path_join (a b : String) : String :=
  if b.startsWith "/" then b
  else if a = "" || a.endsWith "/" then a ++ b
  else a ++ "/" ++ b

/-- Modelled from the spec: `stat_to_longname` lives in
`pysftpserver/stat_helpers.py`, which is not under src/; the spec
describes it only as a formatted one-line listing string derived from the
resolved stat fields and the entry name. -/
def stat_to_longname (s : StatRes) (name : String) : String :=
  toString s.st_mode ++ " " ++ toString s.st_uid ++ " " ++
    toString s.st_gid ++ " " ++ toString s.st_size ++ " " ++
    toString s.st_mtime ++ " " ++ name

/-- The path the default stat variant queries: the filename, joined under
the parent when one is given. -/
def statTarget (parent : Option String) (filename : String) : String :=
  match parent with
  | none => filename
  | some p => os_path_join p filename

/-- Packing a remote stat structure into the returned dictionary. -/
def statAttrs (s : StatRes) (longname : Option String) : Attrs :=
  { size := s.st_size, uid := s.st_uid, gid := s.st_gid,
    perm := s.st_mode, atime := s.st_atime, mtime := s.st_mtime,
    longname := longname }

/-- Embedding of the body of `SFTPServerProxyStorage.stat` (before the
`exception_wrapper` decoration).  `hstat` models what `filename.stat()`
would return in the fstat variant, where the operand is a handle; in the
default variant a failing `client.stat` falls back (bare except) to
`client.lstat` on the same joined path.  `longname` is None exactly when
`fstat` is set. -/
def statRaw (c : RemoteClient) (hstat : Except PyExc StatRes)
    (filename : String) (parent : Option String)
    (lstat fstat : Bool) : Except PyExc Attrs :=
  let res : Except PyExc StatRes :=
    if !lstat && fstat then hstat
    else if lstat then c.lstat filename
    else
      match c.stat (statTarget parent filename) with
      | .ok s => .ok s
      | .error _ => c.lstat (statTarget parent filename)
  match res with
  | .error e => .error e
  | .ok s =>
      .ok (statAttrs s
        (if fstat then none else some (stat_to_longname s filename)))

/-- The stat operation as exposed by the adapter: the body wrapped by
`exception_wrapper`. -/
def statOp (c : RemoteClient) (hstat : Except PyExc StatRes)
    (filename : String) (parent : Option String)
    (lstat fstat : Bool) : Except PyExc Attrs :=
  exception_wrapper (statRaw c hstat filename parent lstat fstat)

/-- Claim C3: in the default variant (lstat and fstat both false) a
failure of the full stat on the joined path is not propagated: the
adapter falls back to an lstat on the same path, returning its attributes
(with a longname) when it succeeds, and only a failure of that fallback
surfaces as an error (normalized by the wrapper). -/
theorem stat_default_falls_back_to_lstat (c : RemoteClient)
    (hs : Except PyExc StatRes) (fn : String) (parent : Option String)
    (e : PyExc) (hfail : c.stat (statTarget parent fn) = .error e) :
    (∀ s : StatRes, c.lstat (statTarget parent fn) = .ok s →
      statOp c hs fn parent false false =
        .ok (statAttrs s (some (stat_to_longname s fn)))) ∧
    (∀ e2 : PyExc, c.lstat (statTarget parent fn) = .error e2 →
      statOp c hs fn parent false false =
        exception_wrapper (α := Attrs) (.error e2)) := by
  constructor
  · intro s hls
    simp [statOp, statRaw, hfail, hls, exception_wrapper]
  · intro e2 hls
    simp [statOp, statRaw, hfail, hls]

/-- A client whose full stat fails as on a broken symlink while lstat
still answers: used to witness the stat fallback. -/
def brokenLinkClient : RemoteClient :=
  { stat := fun _ => .error (.ioError true 2 "No such file or directory"),
    lstat := fun _ => .ok ⟨7, 0, 0, 41471, 5, 6⟩,
    listdir := fun _ => .ok [],
    remove := fun _ => .ok (),
    symlink := fun _ _ => .ok (),
    truncate := fun _ _ => .ok (),
    chown := fun _ _ _ => .ok (),
    chmod := fun _ _ => .ok (),
    utime := fun _ _ _ => .ok () }

/-- Witness for C3: on a broken symlink the default stat returns the
link's own attributes rather than raising. -/
theorem stat_default_falls_back_to_lstat_witness :
    statOp brokenLinkClient (.error (.other "unused")) "lnk" none
      false false =
      .ok (statAttrs ⟨7, 0, 0, 41471, 5, 6⟩
        (some (stat_to_longname ⟨7, 0, 0, 41471, 5, 6⟩ "lnk"))) :=
  (stat_default_falls_back_to_lstat brokenLinkClient
    (.error (.other "unused")) "lnk" none
    (.ioError true 2 "No such file or directory") rfl).1
    ⟨7, 0, 0, 41471, 5, 6⟩ rfl

/-- Claim C8: when both lstat and fstat are requested the lstat branch
wins: the result never depends on the handle-based fstat query, the
operand is passed as a path to the remote lstat, and the returned
attribute set still has a null longname because the fstat flag alone
controls longname computation. -/
theorem stat_lstat_branch_wins_over_fstat (c : RemoteClient)
    (h1 h2 : Except PyExc StatRes) (fn : String)
    (parent : Option String) :
    statOp c h1 fn parent true true = statOp c h2 fn parent true true ∧
    (∀ s : StatRes, c.lstat fn = .ok s →
      statOp c h1 fn parent true true = .ok (statAttrs s none)) := by
  constructor
  · simp [statOp, statRaw]
  · intro s hls
    simp [statOp, statRaw, hls, exception_wrapper]

/-- Witness for C8: with two handle queries that disagree, the combined
lstat+fstat call still returns the remote lstat answer with a null
longname. -/
theorem stat_lstat_branch_wins_over_fstat_witness :
    statOp brokenLinkClient (.ok ⟨1, 1, 1, 1, 1, 1⟩) "lnk" none
        true true =
      statOp brokenLinkClient (.error (.other "boom")) "lnk" none
        true true ∧
    statOp brokenLinkClient (.ok ⟨1, 1, 1, 1, 1, 1⟩) "lnk" none
        true true = .ok (statAttrs ⟨7, 0, 0, 41471, 5, 6⟩ none) :=
  ⟨(stat_lstat_branch_wins_over_fstat brokenLinkClient
      (.ok ⟨1, 1, 1, 1, 1, 1⟩) (.error (.other "boom")) "lnk" none).1,
   (stat_lstat_branch_wins_over_fstat brokenLinkClient
      (.ok ⟨1, 1, 1, 1, 1, 1⟩) (.error (.other "boom")) "lnk" none).2
      ⟨7, 0, 0, 41471, 5, 6⟩ rfl⟩

/-- A call the adapter issues on a file handle. -/
inductive HCall where
  | seek (off : Int)
  | hwrite (chunk : List Nat)
  | hread (size : Nat)
  | hclose
deriving DecidableEq

/-- True when an Except value carries a result and not an exception. -/
def excIsOk {ε α : Type} : Except ε α → Bool
  | .ok _ => true
  | .error _ => false

/-- Embedding of `SFTPServerProxyStorage.write`: seek to the offset, then
write the chunk, with a bare except turning any failure into the return
value False and success into True.  The second component records the
calls issued on the handle. -/
def writeOp (h : FileHandle) (off : Int) (chunk : List Nat) :
    Except PyExc Bool × List HCall :=
  match h.seek off with
  | .error _ => (.ok false, [.seek off])
  | .ok _ =>
      match h.write chunk with
      | .error _ => (.ok false, [.seek off, .hwrite chunk])
      | .ok _ => (.ok true, [.seek off, .hwrite chunk])

/-- Embedding of `SFTPServerProxyStorage.read`: seek to the offset, then
read; there is no decorator and no handler, so any exception propagates
exactly as the handle raised it.  The second component records the calls
issued on the handle. -/
def readOp (h : FileHandle) (off : Int) (size : Nat) :
    Except PyExc (List Nat) × List HCall :=
  match h.seek off with
  | .error e => (.error e, [.seek off])
  | .ok _ =>
      match h.read size with
      | .error e => (.error e, [.seek off, .hread size])
      | .ok bs => (.ok bs, [.seek off, .hread size])

/-- Embedding of `SFTPServerProxyStorage.close`: forward to the handle,
wrapped by `exception_wrapper`. -/
def closeOp (h : FileHandle) : Except PyExc Unit :=
  exception_wrapper h.close

/-- Claim C4: write always returns a boolean and never raises; the
boolean is true exactly when both the reposition and the write succeed;
and the adapter never issues a close on the handle, which therefore stays
open for a subsequent close. -/
theorem write_returns_bool_never_raises (h : FileHandle) (off : Int)
    (chunk : List Nat) :
    (writeOp h off chunk).1 =
      .ok (excIsOk (h.seek off) && excIsOk (h.write chunk)) ∧
    HCall.hclose ∉ (writeOp h off chunk).2 := by
  constructor
  · cases hs : h.seek off with
    | error e => simp [writeOp, hs, excIsOk]
    | ok u =>
        cases hw : h.write chunk with
        | error e => simp [writeOp, hs, hw, excIsOk]
        | ok u2 => simp [writeOp, hs, hw, excIsOk]
  · cases hs : h.seek off with
    | error e => simp [writeOp, hs]
    | ok u =>
        cases hw : h.write chunk with
        | error e => simp [writeOp, hs, hw]
        | ok u2 => simp [writeOp, hs, hw]

/-- Embedding of `SFTPServerProxyStorage.rm`: forward to the remote
remove, wrapped by `exception_wrapper`. -/
def rmOp (c : RemoteClient) (filename : String) : Except PyExc Unit :=
  exception_wrapper (c.remove filename)

/-- A handle whose read fails with an IOError that is not an OSError
instance (the very case `exception_wrapper` exists for), as a Python 2
remote client raises on a missing file. -/
def rawErrorHandle : FileHandle :=
  { seek := fun _ => .ok (),
    write := fun _ => .ok (),
    read := fun _ => .error (.ioError false 2 "No such file or directory"),
    close := .ok (),
    truncate := fun _ => .ok (),
    chown := fun _ _ => .ok (),
    chmod := fun _ => .ok (),
    utime := fun _ _ => .ok () }

/-- Counterexample to C2 as stated: `read` carries no `exception_wrapper`
decoration, so a remote IOError that is not an OSError instance surfaces
from read exactly as raised — outside the unified OS-error family — while
the claim promises normalization for every operation other than write and
verify, including read. -/
theorem read_error_not_normalized_counterexample :
    (readOp rawErrorHandle 0 4).1 =
      .error (.ioError false 2 "No such file or directory") ∧
    isOSErrorFamily (.ioError false 2 "No such file or directory")
      = false := by
  constructor
  · rfl
  · rfl

/-- Claim C2 (amended to the wrapped operations, excluding read): every
operation decorated with `exception_wrapper` — in particular rm — turns
any IOError-family failure of the remote client into the unified OS-error
family with the original errno and message preserved, whichever native
subfamily the remote client raised. -/
theorem wrapped_ops_normalize_remote_errors :
    (∀ (α : Type) (res : Except PyExc α) (isOS : Bool) (errno : Int)
        (msg : String), res = .error (.ioError isOS errno msg) →
      exception_wrapper res = .error (.ioError true errno msg)) ∧
    (∀ (c : RemoteClient) (fn : String) (isOS : Bool) (errno : Int)
        (msg : String), c.remove fn = .error (.ioError isOS errno msg) →
      rmOp c fn = .error (.ioError true errno msg)) := by
  constructor
  · intro α res isOS errno msg hres
    cases isOS <;> simp [hres, exception_wrapper]
  · intro c fn isOS errno msg hrem
    cases isOS <;> simp [rmOp, hrem, exception_wrapper]

/-- A client whose remove fails with a native (non-OSError) not-found
IOError, as when rm is called on a nonexistent path. -/
def missingFileClient : RemoteClient :=
  { stat := fun _ => .ok ⟨0, 0, 0, 0, 0, 0⟩,
    lstat := fun _ => .ok ⟨0, 0, 0, 0, 0, 0⟩,
    listdir := fun _ => .ok [],
    remove := fun _ => .error (.ioError false 2 "No such file or directory"),
    symlink := fun _ _ => .ok (),
    truncate := fun _ _ => .ok (),
    chown := fun _ _ _ => .ok (),
    chmod := fun _ _ => .ok (),
    utime := fun _ _ _ => .ok () }

/-- Witness for the amended C2: rm of a nonexistent path surfaces the
remote not-found failure as an OS-family error with errno 2 and the
original message. -/
theorem wrapped_ops_normalize_remote_errors_witness :
    rmOp missingFileClient "ghost" =
      .error (.ioError true 2 "No such file or directory") :=
  wrapped_ops_normalize_remote_errors.2 missingFileClient "ghost"
    false 2 "No such file or directory" rfl

/-- UTF-8 encoding of one Unicode code point, as Python's str.encode
produces byte by byte. -/
def encodeChar (c : Nat) : List Nat :=
  if c < 0x80 then [c]
  else if c < 0x800 then [0xC0 + c / 0x40, 0x80 + c % 0x40]
  else if c < 0x10000 then
    [0xE0 + c / 0x1000, 0x80 + (c / 0x40) % 0x40, 0x80 + c % 0x40]
  else
    [0xF0 + c / 0x40000, 0x80 + (c / 0x1000) % 0x40,
      0x80 + (c / 0x40) % 0x40, 0x80 + c % 0x40]

/-- UTF-8 encoding of a list of code points. -/
def encodeList : List Nat → List Nat
  | [] => []
  | c :: cs => encodeChar c ++ encodeList cs

/-- Embedding of Python's `str.encode()`: the UTF-8 bytes of the string,
modelled as a list of byte values. -/
def encode (s : String) : List Nat :=
  encodeList (s.data.map Char.toNat)

/-- Embedding of `SFTPServerProxyStorage.opendir`: one remote listing
call, then the listing entries followed by the two pseudo-entries, each
encoded to bytes, wrapped by `exception_wrapper`.  The second component
records the paths the remote listing was called on. -/
def opendirOp (c : RemoteClient) (filename : String) :
    Except PyExc (List (List Nat)) × List String :=
  (exception_wrapper
    (match c.listdir filename with
     | .ok fs => .ok ((fs ++ [".", ".."]).map encode)
     | .error e => .error e),
   [filename])

/-- Claim C6: opendir issues exactly one remote listing call and, when
the listing succeeds, yields exactly the listing's entries in order
followed by the pseudo-entries dot and dot-dot, every element encoded as
a byte string. -/
theorem opendir_appends_pseudo_entries (c : RemoteClient) (fn : String)
    (xs : List String) (hls : c.listdir fn = .ok xs) :
    (opendirOp c fn).1 =
      .ok (xs.map encode ++ [encode ".", encode ".."]) ∧
    (opendirOp c fn).2 = [fn] := by
  constructor
  · simp [opendirOp, hls, exception_wrapper]
  · rfl

/-- A client whose listing of any path is the two entries a and b. -/
def twoEntryClient : RemoteClient :=
  { stat := fun _ => .ok ⟨0, 0, 0, 0, 0, 0⟩,
    lstat := fun _ => .ok ⟨0, 0, 0, 0, 0, 0⟩,
    listdir := fun _ => .ok ["a", "b"],
    remove := fun _ => .ok (),
    symlink := fun _ _ => .ok (),
    truncate := fun _ _ => .ok (),
    chown := fun _ _ _ => .ok (),
    chmod := fun _ _ => .ok (),
    utime := fun _ _ _ => .ok () }

/-- Witness for C6: a remote listing of a, b yields exactly the byte
strings a, b, dot, dot-dot in that order, and one listing call on the
requested path was made. -/
theorem opendir_appends_pseudo_entries_witness :
    (opendirOp twoEntryClient "d").1 =
      .ok [[97], [98], [46], [46, 46]] ∧
    (opendirOp twoEntryClient "d").2 = ["d"] := by
  have h := opendir_appends_pseudo_entries twoEntryClient "d"
    ["a", "b"] rfl
  exact ⟨h.1.trans (by rfl), h.2⟩

/-- Modelled from the spec: the consumed remote contract is
`symlink(target, link)` — the remote client (an external collaborator,
not under src/) creates at the link path a symbolic link pointing at the
target path; this interprets one remote symlink call, given as the pair
of its two arguments in order, as the pair (location, points-at). -/
def linkCreated (call : String × String) : String × String :=
  (call.2, call.1)

/-- Embedding of `SFTPServerProxyStorage.symlink`: forward to the remote
symlink with the two arguments swapped, wrapped by `exception_wrapper`.
The second component records the remote symlink calls as the pairs of
their arguments in order. -/
def symlinkOp (c : RemoteClient) (linkpath targetpath : String) :
    Except PyExc Unit × List (String × String) :=
  (exception_wrapper (c.symlink targetpath linkpath),
   [(targetpath, linkpath)])

/-- Claim C10: the adapter's symlink forwards to the remote symlink with
the two arguments swapped — the remote call receives the target path
first and the link path second — so the link is created at the link path
pointing at the target path. -/
theorem symlink_swaps_arguments (c : RemoteClient)
    (linkpath targetpath : String) :
    (symlinkOp c linkpath targetpath).1 =
      exception_wrapper (c.symlink targetpath linkpath) ∧
    (symlinkOp c linkpath targetpath).2 = [(targetpath, linkpath)] ∧
    (symlinkOp c linkpath targetpath).2.map linkCreated =
      [(linkpath, targetpath)] := by
  exact ⟨rfl, rfl, rfl⟩

/-- The attribute dictionary a setstat request receives: presence of a
key is the only signal of intent. -/
structure SetAttrs where
  size : Option Int := none
  uid : Option Int := none
  gid : Option Int := none
  perm : Option Int := none
  atime : Option Int := none
  mtime : Option Int := none
deriving DecidableEq

/-- A remote attribute-changing call, tagged with whether it targets the
handle (fsetstat variant) or the path. -/
inductive SCall where
  | truncate (onHandle : Bool) (size : Int)
  | chown (onHandle : Bool) (uid gid : Int)
  | chmod (onHandle : Bool) (perm : Int)
  | utime (onHandle : Bool) (atime mtime : Int)
deriving DecidableEq

/-- Sequencing of two traced steps: the second runs only when the first
succeeded, and then its calls follow the first's. -/
def andThenCalls (x y : Except PyExc Unit × List SCall) :
    Except PyExc Unit × List SCall :=
  match x with
  | (.error e, t) => (.error e, t)
  | (.ok _, t) => (y.1, t ++ y.2)

/-- The size block of `setstat` (lines 137-140): truncate through the
client on the path, or through the handle in the fsetstat variant, when
the size key is present. -/
def sizeStep (c : RemoteClient) (h : FileHandle) (filename : String)
    (attrs : SetAttrs) (fsetstat : Bool) :
    Except PyExc Unit × List SCall :=
  match attrs.size with
  | some n =>
      ((if fsetstat then h.truncate n else c.truncate filename n),
       [.truncate fsetstat n])
  | none => (.ok (), [])

/-- The ownership block of `setstat` (lines 142-146): chown only when
both the uid and the gid keys are present. -/
def chownStep (c : RemoteClient) (h : FileHandle) (filename : String)
    (attrs : SetAttrs) (fsetstat : Bool) :
    Except PyExc Unit × List SCall :=
  match attrs.uid, attrs.gid with
  | some u, some g =>
      ((if fsetstat then h.chown u g else c.chown filename u g),
       [.chown fsetstat u g])
  | _, _ => (.ok (), [])

/-- The permission block of `setstat` (lines 148-151): chmod when the
perm key is present. -/
def permStep (c : RemoteClient) (h : FileHandle) (filename : String)
    (attrs : SetAttrs) (fsetstat : Bool) :
    Except PyExc Unit × List SCall :=
  match attrs.perm with
  | some p =>
      ((if fsetstat then h.chmod p else c.chmod filename p),
       [.chmod fsetstat p])
  | none => (.ok (), [])

/-- The timestamp block of `setstat` (lines 153-157): utime only when
both the atime and the mtime keys are present. -/
def utimeStep (c : RemoteClient) (h : FileHandle) (filename : String)
    (attrs : SetAttrs) (fsetstat : Bool) :
    Except PyExc Unit × List SCall :=
  match attrs.atime, attrs.mtime with
  | some a, some m =>
      ((if fsetstat then h.utime a m else c.utime filename a m),
       [.utime fsetstat a m])
  | _, _ => (.ok (), [])

/-- Embedding of the body of `SFTPServerProxyStorage.setstat`: the four
category blocks in source order, a raised exception aborting the
remaining blocks.  The second component records the attribute-changing
calls issued remotely. -/
def setstatRaw (c : RemoteClient) (h : FileHandle) (filename : String)
    (attrs : SetAttrs) (fsetstat : Bool) :
    Except PyExc Unit × List SCall :=
  andThenCalls (sizeStep c h filename attrs fsetstat)
    (andThenCalls (chownStep c h filename attrs fsetstat)
      (andThenCalls (permStep c h filename attrs fsetstat)
        (utimeStep c h filename attrs fsetstat)))

/-- The setstat operation as exposed by the adapter: the body wrapped by
`exception_wrapper`, alongside the calls it issued. -/
def setstatOp (c : RemoteClient) (h : FileHandle) (filename : String)
    (attrs : SetAttrs) (fsetstat : Bool) :
    Except PyExc Unit × List SCall :=
  (exception_wrapper (setstatRaw c h filename attrs fsetstat).1,
   (setstatRaw c h filename attrs fsetstat).2)

/-- The calls the spec's category table prescribes for an attribute set:
size-truncate, then joint uid+gid ownership, then perm-mode, then joint
atime+mtime timestamps, each category only when its full key-set is
present. -/
def setstatSpecCalls (attrs : SetAttrs) (fsetstat : Bool) : List SCall :=
  (match attrs.size with
   | some n => [.truncate fsetstat n]
   | none => []) ++
  ((match attrs.uid, attrs.gid with
    | some u, some g => [.chown fsetstat u g]
    | _, _ => []) ++
   ((match attrs.perm with
     | some p => [.chmod fsetstat p]
     | none => []) ++
    (match attrs.atime, attrs.mtime with
     | some a, some m => [.utime fsetstat a m]
     | _, _ => [])))

/-- Dispatch of one prescribed call to the path or handle form. -/
def execCall (c : RemoteClient) (h : FileHandle) (filename : String) :
    SCall → Except PyExc Unit
  | .truncate onH n => if onH then h.truncate n else c.truncate filename n
  | .chown onH u g => if onH then h.chown u g else c.chown filename u g
  | .chmod onH p => if onH then h.chmod p else c.chmod filename p
  | .utime onH a m => if onH then h.utime a m else c.utime filename a m

/-- Running a list of prescribed calls in order, stopping at the first
failure; the trace lists the calls actually issued. -/
def runSpecCalls (c : RemoteClient) (h : FileHandle) (filename : String) :
    List SCall → Except PyExc Unit × List SCall
  | [] => (.ok (), [])
  | call :: rest =>
      match execCall c h filename call with
      | .error e => (.error e, [call])
      | .ok _ =>
          let z := runSpecCalls c h filename rest
          (z.1, call :: z.2)

lemma runSpecCalls_append (c : RemoteClient) (h : FileHandle)
    (fn : String) (xs ys : List SCall) :
    runSpecCalls c h fn (xs ++ ys) =
      andThenCalls (runSpecCalls c h fn xs) (runSpecCalls c h fn ys) := by
  induction xs with
  | nil => simp [runSpecCalls, andThenCalls]
  | cons a as ih =>
      simp only [List.cons_append, runSpecCalls]
      cases hE : execCall c h fn a with
      | error e => simp [andThenCalls, hE]
      | ok u =>
          cases hz : runSpecCalls c h fn as with
          | mk z1 z2 =>
              cases z1 with
              | error e =>
                  simp [runSpecCalls, hE, andThenCalls, ih, hz]
              | ok u2 =>
                  simp [runSpecCalls, hE, andThenCalls, ih, hz]

lemma sizeStep_eq_run (c : RemoteClient) (h : FileHandle) (fn : String)
    (attrs : SetAttrs) (fs : Bool) :
    sizeStep c h fn attrs fs =
      runSpecCalls c h fn
        (match attrs.size with
         | some n => [SCall.truncate fs n]
         | none => []) := by
  cases hn : attrs.size with
  | none => simp [sizeStep, hn, runSpecCalls]
  | some n =>
      simp only [sizeStep, hn, runSpecCalls, execCall]
      cases hE : (if fs then h.truncate n else c.truncate fn n) with
      | error e => simp [hE]
      | ok u => simp [hE]

lemma chownStep_eq_run (c : RemoteClient) (h : FileHandle) (fn : String)
    (attrs : SetAttrs) (fs : Bool) :
    chownStep c h fn attrs fs =
      runSpecCalls c h fn
        (match attrs.uid, attrs.gid with
         | some u, some g => [SCall.chown fs u g]
         | _, _ => []) := by
  cases hu : attrs.uid with
  | none => cases hg : attrs.gid <;> simp [chownStep, hu, hg, runSpecCalls]
  | some u =>
      cases hg : attrs.gid with
      | none => simp [chownStep, hu, hg, runSpecCalls]
      | some g =>
          simp only [chownStep, hu, hg, runSpecCalls, execCall]
          cases hE : (if fs then h.chown u g else c.chown fn u g) with
          | error e => simp [hE]
          | ok u2 => simp [hE]

lemma permStep_eq_run (c : RemoteClient) (h : FileHandle) (fn : String)
    (attrs : SetAttrs) (fs : Bool) :
    permStep c h fn attrs fs =
      runSpecCalls c h fn
        (match attrs.perm with
         | some p => [SCall.chmod fs p]
         | none => []) := by
  cases hp : attrs.perm with
  | none => simp [permStep, hp, runSpecCalls]
  | some p =>
      simp only [permStep, hp, runSpecCalls, execCall]
      cases hE : (if fs then h.chmod p else c.chmod fn p) with
      | error e => simp [hE]
      | ok u => simp [hE]

lemma utimeStep_eq_run (c : RemoteClient) (h : FileHandle) (fn : String)
    (attrs : SetAttrs) (fs : Bool) :
    utimeStep c h fn attrs fs =
      runSpecCalls c h fn
        (match attrs.atime, attrs.mtime with
         | some a, some m => [SCall.utime fs a m]
         | _, _ => []) := by
  cases ha : attrs.atime with
  | none => cases hm : attrs.mtime <;> simp [utimeStep, ha, hm, runSpecCalls]
  | some a =>
      cases hm : attrs.mtime with
      | none => simp [utimeStep, ha, hm, runSpecCalls]
      | some m =>
          simp only [utimeStep, ha, hm, runSpecCalls, execCall]
          cases hE : (if fs then h.utime a m else c.utime fn a m) with
          | error e => simp [hE]
          | ok u => simp [hE]

/-- The body of setstat runs exactly the calls the spec's category table
prescribes, in the table's order, stopping at the first failure. -/
lemma setstatRaw_eq_runSpecCalls (c : RemoteClient) (h : FileHandle)
    (fn : String) (attrs : SetAttrs) (fs : Bool) :
    setstatRaw c h fn attrs fs =
      runSpecCalls c h fn (setstatSpecCalls attrs fs) := by
  rw [setstatSpecCalls, runSpecCalls_append, runSpecCalls_append,
    runSpecCalls_append, setstatRaw, sizeStep_eq_run, chownStep_eq_run,
    permStep_eq_run, utimeStep_eq_run]

/-- Claim C5: setstat applies the attribute categories independently in
the fixed order size-truncate, uid+gid-ownership, perm-mode,
atime+mtime-timestamps — exactly the spec's category table run in order
with the first failure aborting the remaining categories; a set with only
uid and gid issues only the ownership call, a set with only perm issues
only the mode call, and a uid without a gid issues no ownership call. -/
theorem setstat_applies_categories_in_order (c : RemoteClient)
    (h : FileHandle) (fn : String) (fs : Bool) :
    (∀ attrs : SetAttrs, setstatRaw c h fn attrs fs =
      runSpecCalls c h fn (setstatSpecCalls attrs fs)) ∧
    (∀ u g : Int,
      (setstatRaw c h fn ⟨none, some u, some g, none, none, none⟩ fs).2 =
        [.chown fs u g]) ∧
    (∀ p : Int,
      (setstatRaw c h fn ⟨none, none, none, some p, none, none⟩ fs).2 =
        [.chmod fs p]) ∧
    (∀ u : Int,
      setstatRaw c h fn ⟨none, some u, none, none, none, none⟩ fs =
        (.ok (), [])) := by
  refine ⟨fun attrs => setstatRaw_eq_runSpecCalls c h fn attrs fs,
    fun u g => ?_, fun p => ?_, fun u => ?_⟩
  · rw [setstatRaw_eq_runSpecCalls]
    simp only [setstatSpecCalls, runSpecCalls, execCall]
    cases hE : (if fs then h.chown u g else c.chown fn u g) with
    | error e => simp [hE]
    | ok u2 => simp [hE, runSpecCalls]
  · rw [setstatRaw_eq_runSpecCalls]
    simp only [setstatSpecCalls, runSpecCalls, execCall]
    cases hE : (if fs then h.chmod p else c.chmod fn p) with
    | error e => simp [hE]
    | ok u2 => simp [hE, runSpecCalls]
  · rw [setstatRaw_eq_runSpecCalls]
    simp [setstatSpecCalls, runSpecCalls]

/-- Claim C9: an attribute set containing no complete category key-set —
no size, not both uid and gid, no perm, and not both atime and mtime —
makes setstat issue no remote call at all and return normally. -/
theorem setstat_incomplete_categories_no_call (c : RemoteClient)
    (h : FileHandle) (fn : String) (fs : Bool) (attrs : SetAttrs)
    (h1 : attrs.size = none)
    (h2 : attrs.uid = none ∨ attrs.gid = none)
    (h3 : attrs.perm = none)
    (h4 : attrs.atime = none ∨ attrs.mtime = none) :
    setstatOp c h fn attrs fs = (.ok (), []) := by
  have hcalls : setstatSpecCalls attrs fs = [] := by
    rcases h2 with h2 | h2 <;> rcases h4 with h4 | h4 <;>
      cases hu : attrs.uid <;> cases ha : attrs.atime <;>
      simp_all [setstatSpecCalls]
  simp [setstatOp, setstatRaw_eq_runSpecCalls, hcalls, runSpecCalls,
    exception_wrapper]

/-- A handle whose every operation succeeds. -/
def okHandle : FileHandle :=
  { seek := fun _ => .ok (),
    write := fun _ => .ok (),
    read := fun _ => .ok [],
    close := .ok (),
    truncate := fun _ => .ok (),
    chown := fun _ _ => .ok (),
    chmod := fun _ => .ok (),
    utime := fun _ _ => .ok () }

/-- Witness for C9: an attribute set carrying only a uid (no gid, no
other key) issues no remote call and returns normally. -/
theorem setstat_incomplete_categories_no_call_witness :
    setstatOp twoEntryClient okHandle "f"
      ⟨none, some 1, none, none, none, none⟩ false = (.ok (), []) :=
  setstat_incomplete_categories_no_call twoEntryClient okHandle "f" false
    ⟨none, some 1, none, none, none, none⟩ rfl (Or.inr rfl) rfl
    (Or.inl rfl)
